import Mathlib

/-
  Verification of core data-model claims for the dnspython repository.

  Shallow embedding notes:
  * Python machine integers are modelled as `Nat` (all values involved are
    non-negative and no overflow-sensitive arithmetic appears in the
    embedded code paths; 16-bit packing is made explicit where it occurs).
  * Python `dict` (insertion ordered) is modelled as an association list.
  * Fallible code returns `Except`.
  * `src/dns/name.py` is absent from the source tree, so domain names and
    the few name operations needed are modelled from the spec (see the
    doc comments on `DName` and its operations).
-/

namespace Dnspython

/-! ## dns.rdatatype constants (src/dns/rdatatype.py) -/

namespace Rdatatype

def NONE : Nat := 0

def A : Nat := 1

def NS : Nat := 2

def CNAME : Nat := 5

def SIG : Nat := 24

def KEY : Nat := 25

def RRSIG : Nat := 46

def NSEC : Nat := 47

def NSEC3 : Nat := 50

end Rdatatype

/-! ## dns.set.Set (src/dns/set.py)

The Python class stores its elements as the keys of an insertion-ordered
`dict` (`self.items`), with `None` values.  We model the key sequence as a
list; inserting a key that is already present leaves a Python dict (and
hence the model) unchanged, while a new key is appended at the end. -/

structure DnsSet (α : Type) where
  items : List α
deriving DecidableEq, Repr

namespace DnsSet

def empty (α : Type) : DnsSet α := ⟨[]⟩

/-- Embeds `Set.add`: `self.items[item] = None`. -/
def add {α : Type} [DecidableEq α] (s : DnsSet α) (x : α) : DnsSet α :=
  if x ∈ s.items then s else ⟨s.items ++ [x]⟩

/-- Embeds `Set.__len__`. -/
def size {α : Type} (s : DnsSet α) : Nat := s.items.length

/-- Embeds `Set.__getitem__` with an integer index: the i-th element in
iteration order. -/
def getItem {α : Type} (s : DnsSet α) (i : Nat) : Option α := s.items.get? i

/-- Embeds building a set by a sequence of `add` calls starting from empty. -/
def build {α : Type} [DecidableEq α] (xs : List α) : DnsSet α :=
  xs.foldl add (empty α)

/-- The specification-side description of iteration order: the elements in
order of first insertion.  `seen` accumulates the elements already kept. -/
def firstOccAux {α : Type} [DecidableEq α] (seen : List α) : List α → List α
  | [] => []
  | x :: xs => if x ∈ seen then firstOccAux seen xs else x :: firstOccAux (x :: seen) xs

/-- The elements of `xs` in first-insertion order (spec-side definition for
the refinement statement of claim C10). -/
def firstOccurrences {α : Type} [DecidableEq α] (xs : List α) : List α :=
  firstOccAux [] xs

end DnsSet

/-! ## dns.rdataset.Rdataset (src/dns/rdataset.py)

`Rdataset` subclasses `dns.set.Set`, adding `rdclass`, `rdtype`, `covers`
and `ttl` slots.  An rdata is modelled as its identifying data: class,
type, the value its `covers()` method reports, and an opaque payload
standing for the type-specific fields. -/

structure RdataRec where
  rdclass : Nat
  rdtype : Nat
  coversVal : Nat
  payload : Nat
deriving DecidableEq, Repr

structure Rdataset where
  rdclass : Nat
  rdtype : Nat
  covers : Nat
  ttl : Nat
  items : List RdataRec
deriving DecidableEq, Repr

namespace Rdataset

/-- Embeds `Rdataset.__init__` (covers defaults to NONE, ttl to 0). -/
def init (rdclass rdtype : Nat) : Rdataset :=
  ⟨rdclass, rdtype, Rdatatype.NONE, 0, []⟩

/-- Modelled from the spec: the body of `Rdataset.update_ttl` in
src/dns/rdataset.py is an unimplemented stub (`pass`).  Per its docstring
and spec section 4.3, the TTL becomes the lesser of the current TTL and the
supplied TTL, except that if the set contains no rdatas the TTL is set to
the supplied TTL. -/
def update_ttl (s : Rdataset) (ttl : Nat) : Rdataset :=
  if s.items = [] then { s with ttl := ttl } else { s with ttl := min s.ttl ttl }

inductive AddError where
  | incompatibleTypes
  | differingCovers
deriving DecidableEq, Repr

/-- The inherited `dns.set.Set.add` applied to the rdata list. -/
def setAdd (l : List RdataRec) (rd : RdataRec) : List RdataRec :=
  (DnsSet.add ⟨l⟩ rd).items

/-- Modelled from the spec: the body of `Rdataset.add` in
src/dns/rdataset.py is an unimplemented stub (`pass`).  Per its docstring
and spec section 4.3: a class/type mismatch raises `IncompatibleTypes`;
if a ttl is supplied, `update_ttl` is applied prior to adding; a SIG/RRSIG
rdataset is restricted to one covered type (`DifferingCovers` otherwise,
with the covers adopted from the first rdata added); rdatas are
deduplicated by equality via the inherited set add. -/
def add (s : Rdataset) (rd : RdataRec) (ttl : Option Nat) : Except AddError Rdataset :=
  if rd.rdtype ≠ s.rdtype ∨ rd.rdclass ≠ s.rdclass then
    .error .incompatibleTypes
  else
    let s1 := match ttl with
      | some t => s.update_ttl t
      | none => s
    if s1.rdtype = Rdatatype.SIG ∨ s1.rdtype = Rdatatype.RRSIG then
      if s1.items = [] ∧ s1.covers = Rdatatype.NONE then
        .ok { s1 with covers := rd.coversVal, items := setAdd s1.items rd }
      else if s1.covers ≠ rd.coversVal then
        .error .differingCovers
      else
        .ok { s1 with items := setAdd s1.items rd }
    else
      .ok { s1 with items := setAdd s1.items rd }

/-- A sequence of `add` calls, each supplying a TTL. -/
def addSeq (s : Rdataset) : List (RdataRec × Nat) → Except AddError Rdataset
  | [] => .ok s
  | (rd, t) :: rest =>
    match s.add rd (some t) with
    | .error e => .error e
    | .ok s1 => addSeq s1 rest

/-- The minimum of the TTLs supplied by a sequence of add calls. -/
def minTTLs : List (RdataRec × Nat) → Nat
  | [] => 0
  | (_, t) :: rest => rest.foldl (fun m p => min m p.2) t

end Rdataset

/-! ## Domain names

Modelled from the spec: src/dns/name.py is not present in the source tree
(only its callers are).  Per spec section 3, a domain name is an ordered
sequence of labels, each a sequence of octets, and a name is absolute iff
its last label is the empty (root) label.  Per spec section 4.4, absolute
names passed to a zone must be subdomains of the origin and are
relativized iff the zone's relativize flag is set. -/

structure DName where
  labels : List (List Nat)
deriving DecidableEq, Repr

namespace DName

/-- Modelled from the spec: a name is absolute iff its last label is the
empty (root) label. -/
def is_absolute (n : DName) : Bool := n.labels.getLast? = some []

/-- Modelled from the spec: a name is a subdomain of another iff the
other's label sequence is a suffix of its own. -/
def is_subdomain (n o : DName) : Bool :=
  decide (o.labels = n.labels.drop (n.labels.length - o.labels.length)) &&
    decide (o.labels.length ≤ n.labels.length)

/-- Modelled from the spec: relativizing a subdomain against an origin
drops the origin's labels from the end. -/
def relativize (n o : DName) : DName :=
  ⟨n.labels.take (n.labels.length - o.labels.length)⟩

/-- Modelled from the spec: derelativizing a relative name appends the
origin's labels. -/
def derelativize (n o : DName) : DName :=
  ⟨n.labels ++ o.labels⟩

end DName

/-! ## dns.node.Node (src/dns/node.py) -/

def cnameTypes : List Nat := [Rdatatype.CNAME]

def neutralTypes : List Nat := [Rdatatype.NSEC, Rdatatype.NSEC3, Rdatatype.KEY]

inductive NodeKind where
  | regular
  | neutral
  | cname
deriving DecidableEq, Repr

structure DnsNode where
  rdatasets : List Rdataset
deriving DecidableEq, Repr

namespace DnsNode

def empty : DnsNode := ⟨[]⟩

/-- Embeds `Node._append_rdataset`: appending a CNAME rdataset keeps only
the neutral types (and their covering RRSIGs); appending a regular
rdataset removes CNAME and RRSIG(CNAME); then the rdataset is appended. -/
def append_rdataset (nd : DnsNode) (rds : Rdataset) : DnsNode :=
  if rds.rdtype ∈ cnameTypes then
    ⟨(nd.rdatasets.filter (fun r =>
        decide (r.rdtype ∈ neutralTypes ∨
          (r.rdtype = Rdatatype.RRSIG ∧ r.covers ∈ neutralTypes)))) ++ [rds]⟩
  else if rds.rdtype ∉ neutralTypes then
    ⟨(nd.rdatasets.filter (fun r =>
        decide (r.rdtype ∉ cnameTypes ∧
          ¬(r.rdtype = Rdatatype.RRSIG ∧ r.covers ∈ cnameTypes)))) ++ [rds]⟩
  else
    ⟨nd.rdatasets ++ [rds]⟩

/-- Embeds `Node.find_rdataset`: scan for a class/type/covers match;
with create, a fresh rdataset is built and appended via
`_append_rdataset`; otherwise KeyError (modelled as the error case).
Returns the found or created rdataset together with the updated node. -/
def find_rdataset (nd : DnsNode) (rdclass rdtype covers : Nat) (create : Bool) :
    Except Unit (Rdataset × DnsNode) :=
  match nd.rdatasets.find? (fun r =>
      decide (r.rdclass = rdclass ∧ r.rdtype = rdtype ∧ r.covers = covers)) with
  | some r => .ok (r, nd)
  | none =>
    if create then
      let rds : Rdataset := ⟨rdclass, rdtype, covers, 0, []⟩
      .ok (rds, nd.append_rdataset rds)
    else
      .error ()

/-- Embeds `Node.classify`. -/
def classify (nd : DnsNode) : NodeKind :=
  let hasCname := nd.rdatasets.any (fun r => decide (r.rdtype ∈ cnameTypes))
  let hasRegular := nd.rdatasets.any (fun r =>
    decide (r.rdtype ∉ cnameTypes ∧ r.rdtype ∉ neutralTypes ∧
      ¬(r.rdtype = Rdatatype.RRSIG ∧ r.covers ∈ neutralTypes)))
  if hasCname then .cname
  else if hasRegular then .regular
  else .neutral

end DnsNode

/-! ## dns.zone.Zone (src/dns/zone.py) -/

inductive ZoneErr where
  | keyError
  | valueError
deriving DecidableEq, Repr

structure PyZone where
  rdclass : Nat
  origin : Option DName
  nodes : List (DName × DnsNode)
  relativize : Bool
deriving DecidableEq, Repr

namespace PyZone

/-- The argument passed as `origin` to `Zone.__init__`: `None`, an already
constructed name, a string (whose `dns.name.from_text` parse we carry as a
value, since name.py is absent from the source tree), or a value of some
other type (not convertible to a DNS name). -/
inductive OriginArg where
  | noneArg
  | nameArg (n : DName)
  | strArg (parsed : DName)
  | otherArg

/-- Embeds the origin handling of `Zone.__init__`: a string is converted
via `dns.name.from_text`; a non-string non-Name raises ValueError; any
non-None origin that is not absolute raises ValueError. -/
def init (origin : OriginArg) (rdclass : Nat) (relativize : Bool) :
    Except ZoneErr PyZone :=
  match origin with
  | .noneArg => .ok ⟨rdclass, none, [], relativize⟩
  | .nameArg n =>
    if n.is_absolute then .ok ⟨rdclass, some n, [], relativize⟩
    else .error .valueError
  | .strArg p =>
    if p.is_absolute then .ok ⟨rdclass, some p, [], relativize⟩
    else .error .valueError
  | .otherArg => .error .valueError

/-- Modelled from the spec: `Zone._validate_name` is called throughout
src/dns/zone.py but is not defined anywhere in the source tree.  Per spec
section 4.4, absolute names must be subdomains of the origin (KeyError
otherwise) and are relativized iff the zone's relativize flag is set;
relative names are interpreted relative to the origin (and derelativized
when the zone stores absolute names). -/
def validateName (z : PyZone) (n : DName) : Except ZoneErr DName :=
  match z.origin with
  | none => .error .keyError
  | some o =>
    if n.is_absolute then
      if n.is_subdomain o then
        .ok (if z.relativize then n.relativize o else n)
      else
        .error .keyError
    else
      if z.relativize then .ok n else .ok (n.derelativize o)

/-- Association-list lookup standing for the Python `dict` lookup on
`self.nodes`. -/
def lookupNode (nodes : List (DName × DnsNode)) (k : DName) : Option DnsNode :=
  match nodes.find? (fun p => decide (p.1 = k)) with
  | some p => some p.2
  | none => none

def storeNode (nodes : List (DName × DnsNode)) (k : DName) (nd : DnsNode) :
    List (DName × DnsNode) :=
  if (nodes.find? (fun p => decide (p.1 = k))).isSome then
    nodes.map (fun p => if p.1 = k then (k, nd) else p)
  else
    nodes ++ [(k, nd)]

/-- Embeds `Zone.find_node`: validate the name, look it up, and create a
fresh node when absent and create is set.  Returns the validated key, the
node, and the updated zone (Python mutates `self.nodes` in place). -/
def find_node (z : PyZone) (n : DName) (create : Bool) :
    Except ZoneErr (DName × DnsNode × PyZone) :=
  match z.validateName n with
  | .error e => .error e
  | .ok key =>
    match lookupNode z.nodes key with
    | some nd => .ok (key, nd, z)
    | none =>
      if create then
        let nd := DnsNode.empty
        .ok (key, nd, { z with nodes := storeNode z.nodes key nd })
      else
        .error .keyError

/-- Embeds `Zone.find_rdataset`: find (or create) the node, scan its
rdatasets for an rdtype/covers match, and on a create-miss build a fresh
rdataset and append it with `node.rdatasets.append(rdataset)` -- a direct
list append that does not go through `Node._append_rdataset`.  Returns
the rdataset and the updated zone. -/
def find_rdataset (z : PyZone) (n : DName) (rdtype covers : Nat) (create : Bool) :
    Except ZoneErr (Rdataset × PyZone) :=
  match z.find_node n create with
  | .error e => .error e
  | .ok (key, nd, z1) =>
    match nd.rdatasets.find? (fun r =>
        decide (r.rdtype = rdtype ∧ r.covers = covers)) with
    | some r => .ok (r, z1)
    | none =>
      if create then
        let rds : Rdataset := ⟨z1.rdclass, rdtype, covers, 0, []⟩
        let nd1 : DnsNode := ⟨nd.rdatasets ++ [rds]⟩
        .ok (rds, { z1 with nodes := storeNode z1.nodes key nd1 })
      else
        .error .keyError

end PyZone

/-! ## dns.rdata.Rdata and dns.rdtypes.ANY.RRSIG (src/dns/rdata.py,
src/dns/rdtypes/ANY/RRSIG.py)

The Python code is a class hierarchy: `Rdata` defines `covers()`
(returning `dns.rdatatype.NONE`) and `extended_rdatatype()`.  The `RRSIG`
subclass stores the RRSIG fields but defines no `covers()` override, so
Python method resolution uses the base-class `Rdata.covers` for RRSIG
objects as well.  The hierarchy is embedded as a sum type and the method
dispatch is embedded by matching on the variant. -/

structure RRSIGFields where
  type_covered : Nat
  algorithm : Nat
  labelCount : Nat
  original_ttl : Nat
  expiration : Nat
  inception : Nat
  key_tag : Nat
  signer : DName
  signature : List Nat
deriving DecidableEq, Repr

inductive RdataObj where
  | base (rdclass rdtype : Nat)
  | rrsigObj (rdclass rdtype : Nat) (f : RRSIGFields)
deriving DecidableEq, Repr

namespace RdataObj

def rdtype : RdataObj → Nat
  | .base _ t => t
  | .rrsigObj _ t _ => t

/-- Embeds method resolution for `covers()`: `Rdata.covers` returns
`dns.rdatatype.NONE`, and the `RRSIG` class in
src/dns/rdtypes/ANY/RRSIG.py contains no `covers` method, so every
variant resolves to the base-class body. -/
def covers : RdataObj → Nat
  | .base _ _ => Rdatatype.NONE
  | .rrsigObj _ _ _ => Rdatatype.NONE

/-- Embeds `Rdata.extended_rdatatype`: `self.covers() << 16 | self.rdtype`. -/
def extended_rdatatype (r : RdataObj) : Nat :=
  r.covers <<< 16 ||| r.rdtype

end RdataObj

/-! ## dns.message.Message.is_response (src/dns/message.py) -/

/-- QR flag from src/dns/flags.py. -/
def QRflag : Nat := 32768

/-- Modelled from the spec: the body of `Message.opcode()` in
src/dns/message.py is an unimplemented stub (`pass`).  Per spec section
4.5 the header carries a 4-bit opcode inside the flags word, and the
implemented `dns.opcode.from_flags` in src/dns/opcode.py computes
`(flags >> 11) & 0xF`. -/
def opcodeFromFlags (flags : Nat) : Nat := (flags >>> 11) &&& 0xF

/-- A message as far as `is_response` inspects it: id, flags and the
question section (question entries abstracted as an arbitrary type). -/
structure Msg (Q : Type) where
  mid : Nat
  flags : Nat
  question : List Q
deriving DecidableEq, Repr

namespace Msg

/-- Embeds `Message.is_response`: same id, same opcode, and the QR bit set
in the other message's flags.  The implemented body compares nothing
else; in particular it never looks at the question sections. -/
def is_response {Q : Type} (self other : Msg Q) : Bool :=
  self.mid == other.mid &&
    opcodeFromFlags self.flags == opcodeFromFlags other.flags &&
    (other.flags &&& QRflag) != 0

end Msg

/-! ## dns.immutable.Dict (src/dns/immutable.py) -/

structure ImmDict (K V : Type) where
  entries : List (K × V)
deriving DecidableEq, Repr

namespace ImmDict

def keys {K V : Type} (d : ImmDict K V) : List K := d.entries.map Prod.fst

/-- Embeds `Dict.__hash__`: `h = 0; for key in sorted(self._odict.keys()):
h ^= hash(key)`.  The Python sort order is the relation `r` and the Python
key hash is the function `hk`. -/
def hashify {K V : Type} (r : K → K → Prop) [DecidableRel r] (hk : K → Nat)
    (d : ImmDict K V) : Nat :=
  ((keys d).insertionSort r).foldl (fun h k => h ^^^ hk k) 0

end ImmDict

/-! ## dns.ipv6.inet_ntoa (src/dns/ipv6.py) -/

namespace Ipv6

def hexDigit (n : Nat) : Char :=
  if n < 10 then Char.ofNat (48 + n) else Char.ofNat (87 + n)

/-- The two lowercase hex characters of one byte (Python `bytes.hex`). -/
def byteHex (b : Nat) : List Char := [hexDigit (b / 16 % 16), hexDigit (b % 16)]

/-- One 16-bit group: `address[i:i+2].hex()`, four hex characters. -/
def groupHex (b1 b2 : Nat) : List Char := byteHex b1 ++ byteHex b2

/-- The eight groups of a 16-byte address. -/
def hexGroups : List Nat → List (List Char)
  | b1 :: b2 :: rest => groupHex b1 b2 :: hexGroups rest
  | _ => []

/-- The zero-run scan of `inet_ntoa`, a direct translation of its loop:
state is (best_start, best_len, current_start, current_len), updated per
group, with the final flush after the loop. -/
def bestZeroRun (groups : List (List Char)) : Nat × Nat :=
  let zeroes : List Char := ['0', '0', '0', '0']
  let step := fun (st : Nat × Nat × Option Nat × Nat) (p : Nat × List Char) =>
    let (bestStart, bestLen, curStart, curLen) := st
    if p.2 = zeroes then
      match curStart with
      | none => (bestStart, bestLen, some p.1, curLen + 1)
      | some c => (bestStart, bestLen, some c, curLen + 1)
    else
      if bestLen < curLen then (curStart.getD 0, curLen, none, 0)
      else (bestStart, bestLen, none, 0)
  let fin := groups.enum.foldl step (0, 0, none, 0)
  let (bestStart, bestLen, curStart, curLen) := fin
  if bestLen < curLen then (curStart.getD 0, curLen) else (bestStart, bestLen)

/-- Python `":".join(parts)`. -/
def joinColon (parts : List (List Char)) : List Char :=
  (parts.intersperse [':']).foldl (· ++ ·) []

/-- Python `str.lower()` restricted to ASCII as applied to hex text. -/
def asciiLower (s : List Char) : List Char :=
  s.map (fun c => if 65 ≤ c.toNat ∧ c.toNat ≤ 90 then Char.ofNat (c.toNat + 32) else c)

/-- Embeds `inet_ntoa`: reject non-16-byte input; hex the eight groups;
find the longest zero-group run; if its length exceeds 1, splice in an
empty part and join with colons, fixing up a leading or trailing colon;
return the lowercased text. -/
def inet_ntoa (address : List Nat) : Except Unit (List Char) :=
  if address.length ≠ 16 then .error ()
  else
    let groups := hexGroups address
    let compressed0 := joinColon groups
    let (bestStart, bestLen) := bestZeroRun groups
    let compressed :=
      if 1 < bestLen then
        let parts := groups.take bestStart ++ [[]] ++ groups.drop (bestStart + bestLen)
        let c := joinColon parts
        let c := if c.head? = some ':' then ':' :: c else c
        let c := if c.getLast? = some ':' then c ++ [':'] else c
        c
      else compressed0
    .ok (asciiLower compressed)

end Ipv6

/-! ## dns.renderer.Renderer (src/dns/renderer.py)

The renderer owns an output byte buffer, a name-compression table
(Python dict from name to byte offset, modelled as an association list
over an abstract key type `K` since dns/name.py is absent from the source
tree), the current section, and per-section RR counts.  The bytes written
by `name.to_wire` / `rrset.to_wire` / `rdataset.to_wire`, and the
compression entries those calls insert, are code missing from src
(dns/name.py and the rdata to_wire bodies), so they are taken as
parameters of each operation. -/

inductive RErr where
  | formError
  | tooBig
deriving DecidableEq, Repr

structure Renderer (K : Type) where
  output : List Nat
  compress : List (K × Nat)
  sect : Nat
  counts : List Nat
  maxSize : Nat
  reserved : Nat
  wasPadded : Bool
deriving DecidableEq, Repr

namespace Renderer

/-- Embeds `Renderer.__init__`: 12 zero header bytes, empty compression
table, section QUESTION, zero counts.  The id, flags, origin and mac
attributes never influence the operations embedded here and are left
out. -/
def init (K : Type) (maxSize : Nat) : Renderer K :=
  ⟨List.replicate 12 0, [], 0, [0, 0, 0, 0], maxSize, 0, false⟩

/-- Python `self.counts[i] += k`. -/
def bumpCount (counts : List Nat) (i k : Nat) : List Nat :=
  counts.set i (counts.getD i 0 + k)

/-- Embeds `Renderer._rollback`: truncate the output at `w` and drop every
compression entry whose offset is at or past `w`. -/
def rollback {K : Type} (r : Renderer K) (w : Nat) : Renderer K :=
  { r with output := r.output.take w,
           compress := r.compress.filter (fun kv => decide (kv.2 < w)) }

/-- Big-endian 16-bit packing (Python `struct.pack` with an H field),
reduced modulo 2^16 where overflow would matter. -/
def pack16 (n : Nat) : List Nat := [n % 65536 / 256, n % 256]

/-- Embeds `Renderer.add_question`: set the section to QUESTION (raising
FormError if the current section is later), write the question name
followed by the packed rdtype and rdclass, and raise TooBig with the
buffer rolled back when the total reaches max_size; otherwise bump the
question count.  On error the returned state is the state the Python
object is left in. -/
def add_question {K : Type} (r : Renderer K) (nameWire : List Nat)
    (nameEntries : List (K × Nat)) (rdtype rdclass : Nat) :
    Except (RErr × Renderer K) (Renderer K) :=
  if 0 < r.sect then .error (.formError, r)
  else
    let r0 := { r with sect := 0 }
    let before := r0.output.length
    let r1 := { r0 with
      output := r0.output ++ nameWire ++ pack16 rdtype ++ pack16 rdclass,
      compress := r0.compress ++ nameEntries }
    if r.maxSize ≤ r1.output.length then .error (.tooBig, r1.rollback before)
    else .ok { r1 with counts := bumpCount r1.counts 0 1 }

/-- Embeds `Renderer.add_rrset`: set the section (FormError when going
backwards), write the owner name and the rrset's records, and either
raise TooBig with the buffer rolled back (total at or past max_size) or
bump the section count by the number of records. -/
def add_rrset {K : Type} (r : Renderer K) (sec : Nat) (nameWire : List Nat)
    (entries : List (K × Nat)) (rrWire : List Nat) (rrLen : Nat) :
    Except (RErr × Renderer K) (Renderer K) :=
  if sec < r.sect then .error (.formError, r)
  else
    let r0 := { r with sect := sec }
    let before := r0.output.length
    let r1 := { r0 with
      output := r0.output ++ nameWire ++ rrWire,
      compress := r0.compress ++ entries }
    if r.maxSize ≤ r1.output.length then .error (.tooBig, r1.rollback before)
    else .ok { r1 with counts := bumpCount r1.counts sec rrLen }

/-- Embeds `Renderer.add_rdataset`: identical in structure to
`add_rrset`, with the count bumped by the rdataset's length. -/
def add_rdataset {K : Type} (r : Renderer K) (sec : Nat) (nameWire : List Nat)
    (entries : List (K × Nat)) (rdsWire : List Nat) (rdsLen : Nat) :
    Except (RErr × Renderer K) (Renderer K) :=
  if sec < r.sect then .error (.formError, r)
  else
    let r0 := { r with sect := sec }
    let before := r0.output.length
    let r1 := { r0 with
      output := r0.output ++ nameWire ++ rdsWire,
      compress := r0.compress ++ entries }
    if r.maxSize ≤ r1.output.length then .error (.tooBig, r1.rollback before)
    else .ok { r1 with counts := bumpCount r1.counts sec rdsLen }

/-- Embeds `Renderer.add_opt`: set the section to ADDITIONAL, delegate to
`add_rrset` for the OPT record, optionally append padding so that the
total including the anticipated TSIG is a multiple of pad, and raise
TooBig with a rollback to the pre-OPT offset when the total reaches
max_size.  (The `opt_size` parameter of the Python method is unused by
its body and is omitted.) -/
def add_opt {K : Type} (r : Renderer K) (nameWire : List Nat)
    (entries : List (K × Nat)) (rrWire : List Nat) (rrLen : Nat)
    (pad tsigSize : Nat) : Except (RErr × Renderer K) (Renderer K) :=
  if 3 < r.sect then .error (.formError, r)
  else
    let r0 := { r with sect := 3 }
    let before := r0.output.length
    match r0.add_rrset 3 nameWire entries rrWire rrLen with
    | .error e => .error e
    | .ok r1 =>
      let r2 :=
        if 0 < pad then
          let current := r1.output.length + tsigSize
          let desired := ((current - 1) / pad + 1) * pad
          let padding := desired - current
          if 0 < padding then
            { r1 with output := r1.output ++ List.replicate padding 0,
                      wasPadded := true }
          else r1
        else r1
      if r.maxSize ≤ r2.output.length then .error (.tooBig, r2.rollback before)
      else .ok r2

/-- Embeds `Renderer.add_tsig`: set the section to ADDITIONAL, write the
key name, the TSIG RR header (type 250, class ANY=255, ttl 0) with the
rdata length patched in, and the TSIG rdata; the ADDITIONAL count is
incremented before the size check, and TooBig rolls the buffer back to
the pre-TSIG offset. -/
def add_tsig {K : Type} (r : Renderer K) (keyWire : List Nat)
    (keyEntries : List (K × Nat)) (tsigRdata : List Nat) :
    Except (RErr × Renderer K) (Renderer K) :=
  if 3 < r.sect then .error (.formError, r)
  else
    let r0 := { r with sect := 3 }
    let before := r0.output.length
    let r1 := { r0 with
      output := r0.output ++ keyWire ++ pack16 250 ++ pack16 255 ++
        [0, 0, 0, 0] ++ pack16 tsigRdata.length ++ tsigRdata,
      compress := r0.compress ++ keyEntries }
    let r2 := { r1 with counts := bumpCount r1.counts 3 1 }
    if r.maxSize ≤ r1.output.length then .error (.tooBig, r2.rollback before)
    else .ok r2

/-- The renderer state left behind by an operation, whether it returned
normally or raised. -/
def stateOf {K : Type} : Except (RErr × Renderer K) (Renderer K) → Renderer K
  | .ok s => s
  | .error (_, s) => s

end Renderer

end Dnspython

namespace Dnspython

/-! ## Theorems -/

/-- C1.  The node CNAME invariant is broken by `Zone.find_rdataset` with
create=True: on a zone over origin "e." (labels [[101], []]), creating an
A rdataset and then a CNAME rdataset at the relative name "f"
(labels [[102]]) leaves the node holding both, because zone.py appends the
new rdataset directly to `node.rdatasets` instead of going through
`Node._append_rdataset`; the final node contains a CNAME rdataset and a
non-neutral (A) rdataset simultaneously. -/
theorem c1_zone_find_rdataset_bypasses_cname_purge :
    ((⟨1, some ⟨[[101], []]⟩, [], true⟩ : PyZone).find_rdataset ⟨[[102]]⟩
        Rdatatype.A Rdatatype.NONE true).bind
      (fun p => p.2.find_rdataset ⟨[[102]]⟩ Rdatatype.CNAME Rdatatype.NONE true) =
      .ok (⟨1, Rdatatype.CNAME, Rdatatype.NONE, 0, []⟩,
        ⟨1, some ⟨[[101], []]⟩,
          [(⟨[[102]]⟩, ⟨[⟨1, Rdatatype.A, Rdatatype.NONE, 0, []⟩,
            ⟨1, Rdatatype.CNAME, Rdatatype.NONE, 0, []⟩]⟩)], true⟩) ∧
    (([⟨1, Rdatatype.A, Rdatatype.NONE, 0, []⟩,
       ⟨1, Rdatatype.CNAME, Rdatatype.NONE, 0, []⟩] : List Rdataset).any
      (fun r => decide (r.rdtype ∈ cnameTypes)) = true) ∧
    (([⟨1, Rdatatype.A, Rdatatype.NONE, 0, []⟩,
       ⟨1, Rdatatype.CNAME, Rdatatype.NONE, 0, []⟩] : List Rdataset).any
      (fun r => decide (r.rdtype ∉ cnameTypes ∧ r.rdtype ∉ neutralTypes ∧
        ¬(r.rdtype = Rdatatype.RRSIG ∧ r.covers ∈ neutralTypes))) = true) := by
  refine ⟨rfl, by decide, by decide⟩

/-- C4.  For an RRSIG rdata the implemented `covers()` resolves to the
base-class body and returns NONE, not the covered type, so the
`extended_rdatatype` keys of RRSIG(A) and RRSIG(NS) coincide (both are
46), contrary to the claim. -/
theorem c4_rrsig_covers_returns_none :
    (RdataObj.rrsigObj 1 Rdatatype.RRSIG
      ⟨Rdatatype.A, 13, 2, 300, 20, 10, 12345, ⟨[[101], []]⟩, [1, 2]⟩).covers =
        Rdatatype.NONE ∧
    Rdatatype.NONE ≠ Rdatatype.A ∧
    (RdataObj.rrsigObj 1 Rdatatype.RRSIG
      ⟨Rdatatype.A, 13, 2, 300, 20, 10, 12345, ⟨[[101], []]⟩, [1, 2]⟩).extended_rdatatype = 46 ∧
    (RdataObj.rrsigObj 1 Rdatatype.RRSIG
      ⟨Rdatatype.NS, 13, 2, 300, 20, 10, 12345, ⟨[[101], []]⟩, [1, 2]⟩).extended_rdatatype = 46 ∧
    (Rdatatype.A <<< 16 ||| Rdatatype.RRSIG : Nat) ≠ 46 := by
  refine ⟨rfl, by decide, rfl, rfl, by decide⟩

/-- C5.  `inet_ntoa` never folds the leading zeros of a group and renders
the all-zero address as the empty string: the all-zero address yields ""
(not "::"), the address ::1 yields "::0001" (not "::1"), and the address
1:: yields "0001::" (not "1::"). -/
theorem c5_inet_ntoa_no_leading_zero_fold :
    Ipv6.inet_ntoa (List.replicate 16 0) = .ok [] ∧
    ([] : List Char) ≠ "::".data ∧
    Ipv6.inet_ntoa (List.replicate 15 0 ++ [1]) = .ok "::0001".data ∧
    "::0001".data ≠ "::1".data ∧
    Ipv6.inet_ntoa ([0, 1] ++ List.replicate 14 0) = .ok "0001::".data ∧
    "0001::".data ≠ "1::".data := by
  refine ⟨rfl, by decide, rfl, by decide, rfl, by decide⟩

/-- C2 counterexample.  Two messages with equal id, equal opcode and QR
set in the second, but with different question sections: `is_response`
returns True although the question sections do not match, refuting the
claimed "only if" direction. -/
theorem c2_counterexample_questions_not_compared :
    Msg.is_response (⟨1, 0, [7]⟩ : Msg Nat) ⟨1, 32768, [9]⟩ = true ∧
    (⟨1, 0, [7]⟩ : Msg Nat).question ≠ (⟨1, 32768, [9]⟩ : Msg Nat).question := by
  refine ⟨rfl, by decide⟩

/-- C2 amended.  `self.is_response(other)` returns True iff self and other
have the same id, the same opcode, and the QR bit is set in other.flags;
the question sections are not compared. -/
theorem c2_is_response_characterization {Q : Type} (m1 m2 : Msg Q) :
    Msg.is_response m1 m2 = true ↔
      (m1.mid = m2.mid ∧ opcodeFromFlags m1.flags = opcodeFromFlags m2.flags ∧
        m2.flags &&& QRflag ≠ 0) := by
  simp [Msg.is_response, Bool.and_eq_true, bne_iff_ne, and_assoc]

/-- Helper: a left fold of XOR over a list depends only on the multiset of
elements. -/
theorem xorFold_perm {K : Type} (hk : K → Nat) {l1 l2 : List K}
    (p : l1.Perm l2) : ∀ b : Nat,
    l1.foldl (fun h k => h ^^^ hk k) b = l2.foldl (fun h k => h ^^^ hk k) b := by
  induction p with
  | nil => intro b; rfl
  | cons x _ ih => intro b; simpa using ih (b ^^^ hk x)
  | swap x y l =>
    intro b
    simp only [List.foldl]
    rw [Nat.xor_assoc, Nat.xor_assoc, Nat.xor_comm (hk y) (hk x)]
  | trans _ _ ih1 ih2 => intro b; exact (ih1 b).trans (ih2 b)

/-- C7.  The hash of a dns.immutable.Dict is the XOR of its key hashes
only: any two Dicts whose key lists agree up to permutation hash equal,
whatever their values; in particular equal Dicts (same entries up to
permutation) hash equal, so the hash/equality contract holds. -/
theorem c7_immutable_dict_hash_ignores_values {K V : Type} (r : K → K → Prop)
    [DecidableRel r] (hk : K → Nat) (d1 d2 d3 d4 : ImmDict K V)
    (h12 : d1.keys.Perm d2.keys) (h34 : d3.entries.Perm d4.entries) :
    ImmDict.hashify r hk d1 = ImmDict.hashify r hk d2 ∧
    ImmDict.hashify r hk d3 = ImmDict.hashify r hk d4 := by
  have key : ∀ a b : ImmDict K V, a.keys.Perm b.keys →
      ImmDict.hashify r hk a = ImmDict.hashify r hk b := by
    intro a b hab
    exact xorFold_perm hk
      (((a.keys.perm_insertionSort r).trans hab).trans
        (b.keys.perm_insertionSort r).symm) 0
  exact ⟨key d1 d2 h12, key d3 d4 (h34.map Prod.fst)⟩

/-- C7 witness: two concrete Dicts with key set {1, 2} but different
values hash equal, by the theorem. -/
theorem c7_witness :
    (ImmDict.keys (⟨[(1, 10), (2, 20)]⟩ : ImmDict Nat Nat)).Perm
      (ImmDict.keys (⟨[(2, 99), (1, 0)]⟩ : ImmDict Nat Nat)) ∧
    ImmDict.hashify (· ≤ ·) id (⟨[(1, 10), (2, 20)]⟩ : ImmDict Nat Nat) =
      ImmDict.hashify (· ≤ ·) id (⟨[(2, 99), (1, 0)]⟩ : ImmDict Nat Nat) :=
  ⟨by decide,
    (c7_immutable_dict_hash_ignores_values (· ≤ ·) id
      ⟨[(1, 10), (2, 20)]⟩ ⟨[(2, 99), (1, 0)]⟩
      ⟨[(1, 10), (2, 20)]⟩ ⟨[(1, 10), (2, 20)]⟩
      (by decide) (by decide)).1⟩

/-- Helper for C10: folding `DnsSet.add` across a list appends, in first
occurrence order, exactly the elements not already present. -/
theorem dnsSet_build_aux {α : Type} [DecidableEq α] (xs : List α) :
    ∀ (s : DnsSet α) (seen : List α), (∀ y, y ∈ seen ↔ y ∈ s.items) →
    (xs.foldl DnsSet.add s).items = s.items ++ DnsSet.firstOccAux seen xs := by
  induction xs with
  | nil => intro s seen _; simp [DnsSet.firstOccAux]
  | cons x xs ih =>
    intro s seen h
    by_cases hx : x ∈ seen
    · have hxs : x ∈ s.items := (h x).1 hx
      simp only [List.foldl_cons, DnsSet.add, if_pos hxs, DnsSet.firstOccAux, if_pos hx]
      exact ih s seen h
    · have hxs : x ∉ s.items := fun c => hx ((h x).2 c)
      simp only [List.foldl_cons, DnsSet.add, if_neg hxs, DnsSet.firstOccAux, if_neg hx]
      rw [ih ⟨s.items ++ [x]⟩ (x :: seen) ?_]
      · simp
      · intro y
        simp only [List.mem_cons, List.mem_append, List.mem_singleton, h y]
        tauto

/-- C10.  `Set.add` is idempotent on present elements (set unchanged,
hence length and iteration order unchanged), and a set built by a
sequence of adds iterates and indexes its elements in first-insertion
order. -/
theorem c10_set_add_idempotent_first_insertion_order {α : Type} [DecidableEq α]
    (s : DnsSet α) (x : α) (xs : List α) (i : Nat) (hx : x ∈ s.items) :
    s.add x = s ∧ (s.add x).size = s.size ∧
    (DnsSet.build xs).items = DnsSet.firstOccurrences xs ∧
    (DnsSet.build xs).getItem i = (DnsSet.firstOccurrences xs).get? i := by
  have hadd : s.add x = s := by simp [DnsSet.add, hx]
  have hb : (DnsSet.build xs).items = DnsSet.firstOccurrences xs := by
    have h := dnsSet_build_aux xs (DnsSet.empty α) []
      (by intro y; simp [DnsSet.empty])
    simpa [DnsSet.build, DnsSet.empty, DnsSet.firstOccurrences] using h
  exact ⟨hadd, by rw [hadd], hb, by simp [DnsSet.getItem, hb]⟩

/-- C10 witness: a concrete set containing 1; adding 1 again changes
nothing, and building from [1, 2, 1, 3] iterates as [1, 2, 3]. -/
theorem c10_witness :
    (1 : Nat) ∈ (⟨[1, 2]⟩ : DnsSet Nat).items ∧
    ((⟨[1, 2]⟩ : DnsSet Nat).add 1 = ⟨[1, 2]⟩ ∧
      ((⟨[1, 2]⟩ : DnsSet Nat).add 1).size = (⟨[1, 2]⟩ : DnsSet Nat).size ∧
      (DnsSet.build [1, 2, 1, 3] : DnsSet Nat).items = DnsSet.firstOccurrences [1, 2, 1, 3] ∧
      (DnsSet.build [1, 2, 1, 3] : DnsSet Nat).getItem 1 =
        (DnsSet.firstOccurrences [1, 2, 1, 3]).get? 1) :=
  ⟨by decide,
    c10_set_add_idempotent_first_insertion_order ⟨[1, 2]⟩ 1 [1, 2, 1, 3] 1 (by decide)⟩

/-- Helper: the inherited set add never empties a list. -/
theorem setAdd_ne_nil (l : List RdataRec) (rd : RdataRec) :
    Rdataset.setAdd l rd ≠ [] := by
  by_cases h : rd ∈ l
  · simpa [Rdataset.setAdd, DnsSet.add, h] using List.ne_nil_of_mem h
  · simp [Rdataset.setAdd, DnsSet.add, h]

/-- Helper: a successful `add` with a supplied TTL on a non-empty rdataset
minimizes the TTL and keeps the rdataset non-empty. -/
theorem rdataset_add_some_nonempty (s : Rdataset) (rd : RdataRec) (t : Nat)
    (s1 : Rdataset) (hne : s.items ≠ [])
    (h : s.add rd (some t) = .ok s1) :
    s1.ttl = min s.ttl t ∧ s1.items ≠ [] := by
  simp only [Rdataset.add, Rdataset.update_ttl, if_neg hne] at h
  split at h
  · cases h
  · split at h
    · split at h
      · rename_i hcond
        exact absurd hcond.1 hne
      · split at h
        · cases h
        · cases h
          exact ⟨rfl, setAdd_ne_nil _ _⟩
    · cases h
      exact ⟨rfl, setAdd_ne_nil _ _⟩

/-- Helper: across a successful sequence of TTL-supplying adds on a
non-empty rdataset, the final TTL is the running minimum. -/
theorem rdataset_addSeq_ttl (l : List (RdataRec × Nat)) :
    ∀ (s s2 : Rdataset), s.items ≠ [] → Rdataset.addSeq s l = .ok s2 →
    s2.ttl = l.foldl (fun m p => min m p.2) s.ttl := by
  induction l with
  | nil =>
    intro s s2 _ h2
    simp only [Rdataset.addSeq] at h2
    cases h2
    rfl
  | cons p rest ih =>
    intro s s2 hne h2
    simp only [Rdataset.addSeq] at h2
    cases hadd : s.add p.1 (some p.2) with
    | error e => rw [hadd] at h2; cases h2
    | ok s1 =>
      rw [hadd] at h2
      obtain ⟨ht, hne1⟩ := rdataset_add_some_nonempty s p.1 p.2 s1 hne hadd
      rw [ih s1 s2 hne1 h2, ht]
      rfl

/-- Helper: the first successful TTL-supplying add on a freshly
initialized (empty) rdataset sets the TTL to the supplied TTL and makes
the rdataset non-empty. -/
theorem rdataset_add_first (rdclass rdtype : Nat) (rd : RdataRec) (t : Nat)
    (s1 : Rdataset) (h : (Rdataset.init rdclass rdtype).add rd (some t) = .ok s1) :
    s1.ttl = t ∧ s1.items ≠ [] := by
  have hup : (Rdataset.init rdclass rdtype).update_ttl t =
      ⟨rdclass, rdtype, Rdatatype.NONE, t, []⟩ := by
    simp [Rdataset.update_ttl, Rdataset.init]
  simp only [Rdataset.add] at h
  rw [hup] at h
  split at h
  · cases h
  · split at h
    · split at h
      · cases h
        exact ⟨rfl, setAdd_ne_nil _ _⟩
      · rename_i hcond
        exact absurd ⟨rfl, rfl⟩ hcond
    · cases h
      exact ⟨rfl, setAdd_ne_nil _ _⟩

/-- C3.  Rdataset TTL handling: `update_ttl` sets the TTL to the supplied
TTL when the set is empty and to the minimum of the stored and supplied
TTL when non-empty; consequently, for any successful sequence of
`add(rd, ttl)` calls on a fresh rdataset the stored TTL is the minimum of
all the supplied TTLs.  (`update_ttl` and `add` are modelled from the
spec: their bodies in src/dns/rdataset.py are unimplemented stubs.) -/
theorem c3_rdataset_ttl_minimization (s : Rdataset) (t rdclass rdtype : Nat)
    (p : RdataRec × Nat) (l : List (RdataRec × Nat)) (s2 : Rdataset)
    (h2 : Rdataset.addSeq (Rdataset.init rdclass rdtype) (p :: l) = .ok s2) :
    ((s.items = [] → (s.update_ttl t).ttl = t) ∧
     (s.items ≠ [] → (s.update_ttl t).ttl = min s.ttl t)) ∧
    s2.ttl = Rdataset.minTTLs (p :: l) := by
  refine ⟨⟨fun h => by simp [Rdataset.update_ttl, h],
           fun h => by simp [Rdataset.update_ttl, if_neg h]⟩, ?_⟩
  simp only [Rdataset.addSeq] at h2
  cases hadd : (Rdataset.init rdclass rdtype).add p.1 (some p.2) with
  | error e => rw [hadd] at h2; cases h2
  | ok s1 =>
    rw [hadd] at h2
    obtain ⟨ht, hne1⟩ := rdataset_add_first rdclass rdtype p.1 p.2 s1 hadd
    rw [rdataset_addSeq_ttl l s1 s2 hne1 h2, ht]
    rfl

/-- C3 witness: adding three rdatas with TTLs 100, 50, 75 to a fresh IN/A
rdataset leaves TTL 50, the minimum; the update_ttl clauses are
instantiated at a non-empty concrete rdataset. -/
theorem c3_witness :
    Rdataset.addSeq (Rdataset.init 1 1)
        [(⟨1, 1, 0, 7⟩, 100), (⟨1, 1, 0, 8⟩, 50), (⟨1, 1, 0, 7⟩, 75)] =
      .ok ⟨1, 1, 0, 50, [⟨1, 1, 0, 7⟩, ⟨1, 1, 0, 8⟩]⟩ ∧
    ((((⟨1, 1, 0, 77, [⟨1, 1, 0, 9⟩]⟩ : Rdataset).items = [] →
        ((⟨1, 1, 0, 77, [⟨1, 1, 0, 9⟩]⟩ : Rdataset).update_ttl 5).ttl = 5) ∧
      ((⟨1, 1, 0, 77, [⟨1, 1, 0, 9⟩]⟩ : Rdataset).items ≠ [] →
        ((⟨1, 1, 0, 77, [⟨1, 1, 0, 9⟩]⟩ : Rdataset).update_ttl 5).ttl =
          min (⟨1, 1, 0, 77, [⟨1, 1, 0, 9⟩]⟩ : Rdataset).ttl 5)) ∧
     (⟨1, 1, 0, 50, [⟨1, 1, 0, 7⟩, ⟨1, 1, 0, 8⟩]⟩ : Rdataset).ttl =
       Rdataset.minTTLs [(⟨1, 1, 0, 7⟩, 100), (⟨1, 1, 0, 8⟩, 50), (⟨1, 1, 0, 7⟩, 75)]) :=
  ⟨rfl,
    c3_rdataset_ttl_minimization ⟨1, 1, 0, 77, [⟨1, 1, 0, 9⟩]⟩ 5 1 1
      (⟨1, 1, 0, 7⟩, 100) [(⟨1, 1, 0, 8⟩, 50), (⟨1, 1, 0, 7⟩, 75)]
      ⟨1, 1, 0, 50, [⟨1, 1, 0, 7⟩, ⟨1, 1, 0, 8⟩]⟩ rfl⟩

/-- C8.  A non-None origin that is a relative name makes `Zone.__init__`
raise ValueError, as does an origin not convertible to a DNS name, and
every successfully constructed Zone has an origin that is None or an
absolute name. -/
theorem c8_zone_origin_none_or_absolute (n : DName) (arg : PyZone.OriginArg)
    (rdclass : Nat) (relativize : Bool) (z : PyZone)
    (hrel : n.is_absolute = false)
    (hok : PyZone.init arg rdclass relativize = .ok z) :
    PyZone.init (.nameArg n) rdclass relativize = .error .valueError ∧
    PyZone.init .otherArg rdclass relativize = .error .valueError ∧
    (z.origin = none ∨ ∃ o, z.origin = some o ∧ o.is_absolute = true) := by
  refine ⟨by simp [PyZone.init, hrel], rfl, ?_⟩
  cases arg with
  | noneArg =>
    cases hok
    exact Or.inl rfl
  | nameArg m =>
    simp only [PyZone.init] at hok
    split at hok
    · cases hok
      exact Or.inr ⟨m, rfl, by assumption⟩
    · cases hok
  | strArg p =>
    simp only [PyZone.init] at hok
    split at hok
    · cases hok
      exact Or.inr ⟨p, rfl, by assumption⟩
    · cases hok
  | otherArg => cases hok

/-- C8 witness: the relative name [[102]] is rejected, and construction
from the absolute name [[101], []] succeeds with an absolute origin. -/
theorem c8_witness :
    (⟨[[102]]⟩ : DName).is_absolute = false ∧
    PyZone.init (.nameArg ⟨[[101], []]⟩) 1 true = .ok ⟨1, some ⟨[[101], []]⟩, [], true⟩ ∧
    (PyZone.init (.nameArg ⟨[[102]]⟩) 1 true = .error .valueError ∧
     PyZone.init .otherArg 1 true = .error .valueError ∧
     ((⟨1, some ⟨[[101], []]⟩, [], true⟩ : PyZone).origin = none ∨
      ∃ o, (⟨1, some ⟨[[101], []]⟩, [], true⟩ : PyZone).origin = some o ∧
        o.is_absolute = true)) :=
  ⟨by decide, rfl,
    c8_zone_origin_none_or_absolute ⟨[[102]]⟩ (.nameArg ⟨[[101], []]⟩) 1 true
      ⟨1, some ⟨[[101], []]⟩, [], true⟩ (by decide) rfl⟩

/-- Helper: rollback never changes the section marker. -/
theorem rollback_sect {K : Type} (r : Renderer K) (w : Nat) :
    (r.rollback w).sect = r.sect := rfl

/-- Helper: the section marker left by `add_rrset`, on any outcome. -/
theorem add_rrset_sect {K : Type} (r : Renderer K) (sec : Nat)
    (nw : List Nat) (en : List (K × Nat)) (rw : List Nat) (rrLen : Nat) :
    (Renderer.stateOf (r.add_rrset sec nw en rw rrLen)).sect =
      if sec < r.sect then r.sect else sec := by
  simp only [Renderer.add_rrset]
  split
  · rename_i h
    simp [Renderer.stateOf, if_pos h]
  · rename_i h
    split <;> simp [Renderer.stateOf, Renderer.rollback, if_neg h]

/-- Helper: the section marker left by `add_rdataset`, on any outcome. -/
theorem add_rdataset_sect {K : Type} (r : Renderer K) (sec : Nat)
    (nw : List Nat) (en : List (K × Nat)) (rw : List Nat) (rrLen : Nat) :
    (Renderer.stateOf (r.add_rdataset sec nw en rw rrLen)).sect =
      if sec < r.sect then r.sect else sec := by
  simp only [Renderer.add_rdataset]
  split
  · rename_i h
    simp [Renderer.stateOf, if_pos h]
  · rename_i h
    split <;> simp [Renderer.stateOf, Renderer.rollback, if_neg h]

/-- Helper: the section marker left by `add_question`, on any outcome. -/
theorem add_question_sect {K : Type} (r : Renderer K) (nw : List Nat)
    (en : List (K × Nat)) (rdtype rdclass : Nat) :
    (Renderer.stateOf (r.add_question nw en rdtype rdclass)).sect =
      if 0 < r.sect then r.sect else 0 := by
  simp only [Renderer.add_question]
  split
  · rename_i h
    simp [Renderer.stateOf, if_pos h]
  · rename_i h
    split <;> simp [Renderer.stateOf, Renderer.rollback, if_neg h]

/-- Helper: the section marker left by `add_tsig`, on any outcome. -/
theorem add_tsig_sect {K : Type} (r : Renderer K) (kw : List Nat)
    (ke : List (K × Nat)) (tw : List Nat) :
    (Renderer.stateOf (r.add_tsig kw ke tw)).sect =
      if 3 < r.sect then r.sect else 3 := by
  simp only [Renderer.add_tsig]
  split
  · rename_i h
    simp [Renderer.stateOf, if_pos h]
  · rename_i h
    split <;> simp [Renderer.stateOf, Renderer.rollback, if_neg h]

/-- Helper: the section marker left by `add_opt`, on any outcome. -/
theorem add_opt_sect {K : Type} (r : Renderer K) (nw : List Nat)
    (en : List (K × Nat)) (rw : List Nat) (rrLen pad tsigSize : Nat) :
    (Renderer.stateOf (r.add_opt nw en rw rrLen pad tsigSize)).sect =
      if 3 < r.sect then r.sect else 3 := by
  simp only [Renderer.add_opt]
  split
  · rename_i h
    simp [Renderer.stateOf, if_pos h]
  · cases hin : ({ r with sect := 3 } : Renderer K).add_rrset 3 nw en rw rrLen with
    | error e =>
      have h2 := add_rrset_sect ({ r with sect := 3 } : Renderer K) 3 nw en rw rrLen
      rw [hin] at h2
      simpa using h2
    | ok r1 =>
      have h2 := add_rrset_sect ({ r with sect := 3 } : Renderer K) 3 nw en rw rrLen
      rw [hin] at h2
      have hr1 : r1.sect = 3 := by simpa [Renderer.stateOf] using h2
      have key : ∀ x : Renderer K, x.sect = 3 →
          (Renderer.stateOf (if r.maxSize ≤ x.output.length then
              Except.error (RErr.tooBig, x.rollback r.output.length)
            else Except.ok x)).sect = 3 := by
        intro x hx
        split <;> simp [Renderer.stateOf, Renderer.rollback, hx]
      exact key _ (by split_ifs <;> simp [hr1])

/-- C9.  Renderer sections never go backwards: requesting a section
earlier than the current one raises FormError and leaves the renderer
exactly as it was, and every rendering operation leaves the section
marker at or past its previous value, so sections are always emitted in
QUESTION, ANSWER, AUTHORITY, ADDITIONAL order. -/
theorem c9_renderer_section_ordering {K : Type} (r : Renderer K)
    (sec sec2 rdtype rdclass rrLen pad tsigSize : Nat)
    (nw rw tw : List Nat) (en : List (K × Nat))
    (hq : 0 < r.sect) (hs : sec < r.sect) :
    r.add_question nw en rdtype rdclass = .error (.formError, r) ∧
    r.add_rrset sec nw en rw rrLen = .error (.formError, r) ∧
    r.add_rdataset sec nw en rw rrLen = .error (.formError, r) ∧
    (3 < r.sect → r.add_opt nw en rw rrLen pad tsigSize = .error (.formError, r)) ∧
    (3 < r.sect → r.add_tsig nw en tw = .error (.formError, r)) ∧
    r.sect ≤ (Renderer.stateOf (r.add_question nw en rdtype rdclass)).sect ∧
    r.sect ≤ (Renderer.stateOf (r.add_rrset sec2 nw en rw rrLen)).sect ∧
    r.sect ≤ (Renderer.stateOf (r.add_rdataset sec2 nw en rw rrLen)).sect ∧
    r.sect ≤ (Renderer.stateOf (r.add_opt nw en rw rrLen pad tsigSize)).sect ∧
    r.sect ≤ (Renderer.stateOf (r.add_tsig nw en tw)).sect := by
  refine ⟨?_, ?_, ?_, ?_, ?_, ?_, ?_, ?_, ?_, ?_⟩
  · simp only [Renderer.add_question, if_pos hq]
  · simp only [Renderer.add_rrset, if_pos hs]
  · simp only [Renderer.add_rdataset, if_pos hs]
  · intro h3
    simp only [Renderer.add_opt, if_pos h3]
  · intro h3
    simp only [Renderer.add_tsig, if_pos h3]
  · rw [add_question_sect, if_pos hq]
  · rw [add_rrset_sect]
    split <;> omega
  · rw [add_rdataset_sect]
    split <;> omega
  · rw [add_opt_sect]
    split <;> omega
  · rw [add_tsig_sect]
    split <;> omega

/-- C9 witness: a renderer currently in the AUTHORITY section (2) rejects
a question or an ANSWER-section rrset with FormError and no state change,
and every operation leaves the section at 2 or later. -/
theorem c9_witness :
    (0 : Nat) < ({ Renderer.init Nat 512 with sect := 2 } : Renderer Nat).sect ∧
    (1 : Nat) < ({ Renderer.init Nat 512 with sect := 2 } : Renderer Nat).sect ∧
    (({ Renderer.init Nat 512 with sect := 2 } : Renderer Nat).add_question [0] [] 1 1 =
        .error (.formError, { Renderer.init Nat 512 with sect := 2 }) ∧
      ({ Renderer.init Nat 512 with sect := 2 } : Renderer Nat).add_rrset 1 [0] [] [9] 1 =
        .error (.formError, { Renderer.init Nat 512 with sect := 2 }) ∧
      ({ Renderer.init Nat 512 with sect := 2 } : Renderer Nat).add_rdataset 1 [0] [] [9] 1 =
        .error (.formError, { Renderer.init Nat 512 with sect := 2 }) ∧
      (3 < ({ Renderer.init Nat 512 with sect := 2 } : Renderer Nat).sect →
        ({ Renderer.init Nat 512 with sect := 2 } : Renderer Nat).add_opt [0] [] [9] 1 0 0 =
          .error (.formError, { Renderer.init Nat 512 with sect := 2 })) ∧
      (3 < ({ Renderer.init Nat 512 with sect := 2 } : Renderer Nat).sect →
        ({ Renderer.init Nat 512 with sect := 2 } : Renderer Nat).add_tsig [0] [] [9] =
          .error (.formError, { Renderer.init Nat 512 with sect := 2 })) ∧
      ({ Renderer.init Nat 512 with sect := 2 } : Renderer Nat).sect ≤
        (Renderer.stateOf (({ Renderer.init Nat 512 with sect := 2 } : Renderer Nat).add_question [0] [] 1 1)).sect ∧
      ({ Renderer.init Nat 512 with sect := 2 } : Renderer Nat).sect ≤
        (Renderer.stateOf (({ Renderer.init Nat 512 with sect := 2 } : Renderer Nat).add_rrset 3 [0] [] [9] 1)).sect ∧
      ({ Renderer.init Nat 512 with sect := 2 } : Renderer Nat).sect ≤
        (Renderer.stateOf (({ Renderer.init Nat 512 with sect := 2 } : Renderer Nat).add_rdataset 3 [0] [] [9] 1)).sect ∧
      ({ Renderer.init Nat 512 with sect := 2 } : Renderer Nat).sect ≤
        (Renderer.stateOf (({ Renderer.init Nat 512 with sect := 2 } : Renderer Nat).add_opt [0] [] [9] 1 0 0)).sect ∧
      ({ Renderer.init Nat 512 with sect := 2 } : Renderer Nat).sect ≤
        (Renderer.stateOf (({ Renderer.init Nat 512 with sect := 2 } : Renderer Nat).add_tsig [0] [] [9])).sect) :=
  ⟨by decide, by decide,
    c9_renderer_section_ordering { Renderer.init Nat 512 with sect := 2 }
      1 3 1 1 1 0 0 [0] [9] [9] [] (by decide) (by decide)⟩

/-- Helper: filtering an extended compression table back to the offsets
below the old buffer length recovers exactly the old table. -/
theorem compress_restore {K : Type} (old en : List (K × Nat)) (n : Nat)
    (hold : ∀ kv ∈ old, kv.2 < n) (hnew : ∀ kv ∈ en, n ≤ kv.2) :
    (old ++ en).filter (fun kv => decide (kv.2 < n)) = old := by
  rw [List.filter_append]
  have h1 : old.filter (fun kv => decide (kv.2 < n)) = old :=
    List.filter_eq_self.mpr (fun a ha => by simpa using hold a ha)
  have h2 : en.filter (fun kv => decide (kv.2 < n)) = [] := by
    simp only [List.filter_eq_nil_iff]
    intro a ha
    simpa using Nat.not_lt.mpr (hnew a ha)
  rw [h1, h2, List.append_nil]

/-- C6 counterexample.  With max_size 17, adding a question whose
rendering makes the message exactly 17 octets raises TooBig (the claim
says exactly max_size is accepted); and a TooBig raised by add_rrset for
the ANSWER section leaves the renderer's current-section marker advanced
to 1, so the renderer state is not fully unchanged. -/
theorem c6_counterexample_exact_max_size_rejected :
    Renderer.add_question (Renderer.init Nat 17) [0] [] 1 1 =
      .error (.tooBig, Renderer.init Nat 17) ∧
    (Renderer.init Nat 17).output.length + ([0] : List Nat).length + 4 = 17 ∧
    (Renderer.init Nat 17).maxSize = 17 ∧
    Renderer.stateOf
        (Renderer.add_rrset (Renderer.init Nat 20) 1 [0] [] (List.replicate 10 0) 1) =
      { Renderer.init Nat 20 with sect := 1 } ∧
    ({ Renderer.init Nat 20 with sect := 1 } : Renderer Nat).sect ≠
      (Renderer.init Nat 20).sect := by
  refine ⟨rfl, rfl, rfl, rfl, by decide⟩

/-- C6 amended.  add_question, add_rrset and add_rdataset raise TooBig
iff the rendered message reaches or exceeds max_size (a message of
exactly max_size octets is rejected); on TooBig, the output is truncated
back to its pre-operation size and the compression entries at or past the
truncation point are removed, restoring the output buffer, the
compression table and the counts, while the current-section marker keeps
the section set on entry.  The hypotheses state the compression-table
discipline: existing entries point below the current buffer end and the
entries added by the name/rrset writers point at or past it. -/
theorem c6_renderer_toobig_threshold_and_rollback {K : Type} (r : Renderer K)
    (sec rdtype rdclass rrLen : Nat) (nw rw : List Nat) (en : List (K × Nat))
    (hq : r.sect = 0) (hsec : r.sect ≤ sec)
    (hold : ∀ kv ∈ r.compress, kv.2 < r.output.length)
    (hnew : ∀ kv ∈ en, r.output.length ≤ kv.2) :
    (r.maxSize ≤ r.output.length + nw.length + 4 →
      r.add_question nw en rdtype rdclass = .error (.tooBig, r)) ∧
    (r.output.length + nw.length + 4 < r.maxSize →
      r.add_question nw en rdtype rdclass =
        .ok { r with
          output := r.output ++ nw ++ Renderer.pack16 rdtype ++ Renderer.pack16 rdclass,
          compress := r.compress ++ en,
          counts := Renderer.bumpCount r.counts 0 1 }) ∧
    (r.maxSize ≤ r.output.length + nw.length + rw.length →
      r.add_rrset sec nw en rw rrLen = .error (.tooBig, { r with sect := sec })) ∧
    (r.output.length + nw.length + rw.length < r.maxSize →
      r.add_rrset sec nw en rw rrLen =
        .ok { r with
          sect := sec,
          output := r.output ++ nw ++ rw,
          compress := r.compress ++ en,
          counts := Renderer.bumpCount r.counts sec rrLen }) ∧
    (r.maxSize ≤ r.output.length + nw.length + rw.length →
      r.add_rdataset sec nw en rw rrLen = .error (.tooBig, { r with sect := sec })) ∧
    (r.output.length + nw.length + rw.length < r.maxSize →
      r.add_rdataset sec nw en rw rrLen =
        .ok { r with
          sect := sec,
          output := r.output ++ nw ++ rw,
          compress := r.compress ++ en,
          counts := Renderer.bumpCount r.counts sec rrLen }) := by
  obtain ⟨out, comp, sct, cnts, ms, res, wp⟩ := r
  simp only at hq hsec hold hnew
  subst hq
  dsimp only
  have hc : (comp ++ en).filter (fun kv => decide (kv.2 < out.length)) = comp :=
    compress_restore comp en out.length hold hnew
  have htq : (out ++ nw ++ Renderer.pack16 rdtype ++ Renderer.pack16 rdclass).take out.length = out := by
    rw [List.append_assoc, List.append_assoc]
    exact List.take_left out _
  have htr : (out ++ nw ++ rw).take out.length = out := by
    rw [List.append_assoc]
    exact List.take_left out _
  refine ⟨?_, ?_, ?_, ?_, ?_, ?_⟩
  · intro hbig
    simp only [Renderer.add_question, Nat.lt_irrefl, if_false]
    split
    · simp [Renderer.rollback, htq, hc]
    · rename_i hcond
      exfalso
      simp [Renderer.pack16] at hcond
      omega
  · intro hsmall
    simp only [Renderer.add_question, Nat.lt_irrefl, if_false]
    split
    · rename_i hcond
      exfalso
      simp [Renderer.pack16] at hcond
      omega
    · rfl
  · intro hbig
    simp only [Renderer.add_rrset]
    rw [if_neg (Nat.not_lt.mpr hsec)]
    split
    · simp [Renderer.rollback, htr, hc]
    · rename_i hcond
      exfalso
      simp at hcond
      omega
  · intro hsmall
    simp only [Renderer.add_rrset]
    rw [if_neg (Nat.not_lt.mpr hsec)]
    split
    · rename_i hcond
      exfalso
      simp at hcond
      omega
    · rfl
  · intro hbig
    simp only [Renderer.add_rdataset]
    rw [if_neg (Nat.not_lt.mpr hsec)]
    split
    · simp [Renderer.rollback, htr, hc]
    · rename_i hcond
      exfalso
      simp at hcond
      omega
  · intro hsmall
    simp only [Renderer.add_rdataset]
    rw [if_neg (Nat.not_lt.mpr hsec)]
    split
    · rename_i hcond
      exfalso
      simp at hcond
      omega
    · rfl

/-- C6 witness: instantiating the amended theorem at a fresh renderer with
max_size 17 and a root-label question name. -/
theorem c6_witness :
    (Renderer.init Nat 17).sect = 0 ∧
    (Renderer.init Nat 17).sect ≤ 1 ∧
    (∀ kv ∈ (Renderer.init Nat 17).compress, kv.2 < (Renderer.init Nat 17).output.length) ∧
    (∀ kv ∈ ([] : List (Nat × Nat)), (Renderer.init Nat 17).output.length ≤ kv.2) ∧
    ((Renderer.init Nat 17).maxSize ≤ (Renderer.init Nat 17).output.length + 1 + 4 →
      (Renderer.init Nat 17).add_question [0] [] 1 1 = .error (.tooBig, Renderer.init Nat 17)) := by
  have h := c6_renderer_toobig_threshold_and_rollback (Renderer.init Nat 17)
    1 1 1 1 [0] [9] [] rfl (by decide)
    (by intro kv h; simp [Renderer.init] at h)
    (by intro kv h; simp at h)
  exact ⟨rfl, by decide, by intro kv h; simp [Renderer.init] at h,
    by intro kv h; simp at h, h.1⟩

end Dnspython
